import Mathlib

/-!
Shallow embedding of the core of the memetendo GBA emulator, together with
proofs checking the natural-language specification against the code.

Sources embedded:
- src/src/arm7tdmi/reg.rs      (operation modes, status register, banked registers)
- src/src/arm7tdmi/thumb.rs    (Thumb dispatch and Thumb.1 shifted-register moves)
- src/libmemetendo/src/dma.rs  (DMA channels: register writes, triggers, stepping)
- src/libmemetendo/src/gba.rs  (bus byte-write routing)

Machine integers are mapped to Nat with explicit `% 2^w` where wrap-around
matters; Rust `Option`/`Result` are mapped to `Option`.
-/

namespace Memetendo

/-! ## Operation modes (src/src/arm7tdmi/reg.rs, `OperationMode`) -/

/-- The seven ARM7TDMI operation modes, `OperationMode` in reg.rs. -/
inductive OperationMode
  | user
  | fastInterrupt
  | interrupt
  | supervisor
  | abort
  | undefinedInstr
  | system
  deriving DecidableEq, Repr

/-- `OperationMode::bits`: the `repr(u8)` discriminant of each mode. -/
def OperationMode.modeBits : OperationMode → Nat
  | .user => 0b10000
  | .fastInterrupt => 0b10001
  | .interrupt => 0b10010
  | .supervisor => 0b10011
  | .abort => 0b10111
  | .undefinedInstr => 0b11011
  | .system => 0b11111

/-- `OperationMode::from_repr` (derived by strum from the discriminants). -/
def OperationMode.fromRepr : Nat → Option OperationMode
  | 0b10000 => some .user
  | 0b10001 => some .fastInterrupt
  | 0b10010 => some .interrupt
  | 0b10011 => some .supervisor
  | 0b10111 => some .abort
  | 0b11011 => some .undefinedInstr
  | 0b11111 => some .system
  | _ => none

/-- `OperationMode::from_bits`: decode the low 5 bits (`bits.bits(..5)`). -/
def OperationMode.fromBits (b : Nat) : Option OperationMode :=
  OperationMode.fromRepr (b % 32)

/-- `OperationMode::bank_index`. -/
def OperationMode.bankIndex : OperationMode → Fin 6
  | .user | .system => 0
  | .fastInterrupt => 1
  | .interrupt => 2
  | .supervisor => 3
  | .abort => 4
  | .undefinedInstr => 5

/-! ## Status register (src/src/arm7tdmi/reg.rs, `StatusRegister`) -/

/-- `OperationState`: ARM (32-bit) or Thumb (16-bit) instruction state. -/
inductive OperationState
  | arm
  | thumb
  deriving DecidableEq, Repr

/-- `OperationState::bits` (`Arm = 0`, `Thumb = 1 << 5`). -/
def OperationState.stateBits : OperationState → Nat
  | .arm => 0
  | .thumb => 32

/-- `StatusRegister` in reg.rs. -/
structure StatusRegister where
  signed : Bool := false
  zero : Bool := false
  carry : Bool := false
  overflow : Bool := false
  irq_disabled : Bool := false
  fiq_disabled : Bool := false
  state : OperationState := .arm
  mode : OperationMode := .supervisor
  deriving DecidableEq, Repr

/-- `StatusRegister::bits`: pack the fields into a 32-bit CPSR word.
The summands occupy disjoint bit positions, so `+` agrees with the
`set_bit`/`|=` sequence of the source. -/
def StatusRegister.bits (sr : StatusRegister) : Nat :=
  (if sr.signed then 0x80000000 else 0) +
  (if sr.zero then 0x40000000 else 0) +
  (if sr.carry then 0x20000000 else 0) +
  (if sr.overflow then 0x10000000 else 0) +
  (if sr.irq_disabled then 0x80 else 0) +
  (if sr.fiq_disabled then 0x40 else 0) +
  sr.state.stateBits + sr.mode.modeBits

/-- `StatusRegister::set_flags_from_bits`. -/
def StatusRegister.setFlagsFromBits (sr : StatusRegister) (w : Nat) : StatusRegister :=
  { sr with
    signed := w.testBit 31
    zero := w.testBit 30
    carry := w.testBit 29
    overflow := w.testBit 28 }

/-- `StatusRegister::set_control_from_bits`. The IRQ/FIQ-disable flags are
assigned before the mode decode, so they stick even when decoding fails
(the `?` early return); the `Result` is modelled by the `Option` component. -/
def StatusRegister.setControlFromBits (sr : StatusRegister) (w : Nat) :
    StatusRegister × Option OperationMode :=
  let sr := { sr with irq_disabled := w.testBit 7, fiq_disabled := w.testBit 6 }
  match OperationMode.fromBits w with
  | some m => ({ sr with mode := m }, some m)
  | none => (sr, none)

/-- The `Default` state of `StatusRegister` (all flags clear, ARM state,
Supervisor mode — `OperationMode::default` is `Supervisor`). -/
def sr0 : StatusRegister := {}

/-! ## Banked register file (src/src/arm7tdmi/reg.rs, `Registers`) -/

/-- A `Bank`: banked SP, LR and SPSR of one mode group. -/
structure Bank where
  sp : Nat := 0
  lr : Nat := 0
  spsr : StatusRegister := {}
  deriving DecidableEq, Repr

/-- `Registers`: 16 general registers, CPSR, SPSR, the six SP/LR/SPSR banks
and the hidden FIQ r8-r12 bank. -/
structure Registers where
  r : Fin 16 → Nat
  cpsr : StatusRegister := {}
  spsr : StatusRegister := {}
  banks : Fin 6 → Bank
  fiq_r8_12_bank : Fin 5 → Nat

/-- `Registers::change_bank`: swap the FIQ r8-r12 bank if entering or
leaving FastInterrupt, save the SP/LR/SPSR of the departing bank, load
those of the incoming bank. -/
def Registers.changeBank (reg : Registers) (mode : OperationMode) : Registers :=
  let oldBankIndex := reg.cpsr.mode.bankIndex
  let bankIndex := mode.bankIndex
  if oldBankIndex = bankIndex then reg
  else
    let reg :=
      if reg.cpsr.mode = .fastInterrupt ∨ mode = .fastInterrupt then
        { reg with
          r := fun i =>
            if h : 8 ≤ i.val ∧ i.val ≤ 12 then reg.fiq_r8_12_bank ⟨i.val - 8, by omega⟩
            else reg.r i
          fiq_r8_12_bank := fun j => reg.r ⟨j.val + 8, by omega⟩ }
      else reg
    let banks := Function.update reg.banks oldBankIndex
      { sp := reg.r 13, lr := reg.r 14, spsr := reg.spsr }
    { reg with
      banks := banks
      r := fun i =>
        if i = 13 then (banks bankIndex).sp
        else if i = 14 then (banks bankIndex).lr
        else reg.r i
      spsr := (banks bankIndex).spsr }

/-- `Registers::change_mode`: change bank, then set the CPSR mode field. -/
def Registers.changeMode (reg : Registers) (mode : OperationMode) : Registers :=
  let reg := reg.changeBank mode
  { reg with cpsr := { reg.cpsr with mode := mode } }

/-! ## DMA engine (src/libmemetendo/src/dma.rs) -/

/-- `State` in dma.rs: the transfer state of a channel. -/
inductive TransferState
  | idle
  | startingTransfer
  | transferring
  deriving DecidableEq, Repr

/-- Set `width` bits starting at bit `lo` of `v` to (the low `width` bits
of) `x`: the `intbits` `set_bits` operation on an unbounded Nat. -/
def setBits (lo width v x : Nat) : Nat :=
  v % 2 ^ lo + x % 2 ^ width * 2 ^ lo + v / 2 ^ (lo + width) * 2 ^ (lo + width)

/-- The `intbits` `set_bit` operation. -/
def setBit (i : Nat) (v : Nat) (b : Bool) : Nat :=
  setBits i 1 v (if b then 1 else 0)

/-- `Channel` in dma.rs. `None` of the Rust `State` enum is `idle` here. -/
structure Channel where
  initial_src_addr : Nat := 0
  initial_dst_addr : Nat := 0
  initial_blocks : Nat := 0
  src_addr_ctrl : Nat := 0
  dst_addr_ctrl : Nat := 0
  repeat_enabled : Bool := false
  transfer_word : Bool := false
  cart_drq : Bool := false
  timing_mode : Nat := 0
  irq_enabled : Bool := false
  enabled : Bool := false
  cached_dmacnt_hi_bits : Nat := 0
  src_addr : Nat := 0
  dst_addr : Nat := 0
  rem_blocks : Nat := 0
  state : TransferState := .idle
  deriving DecidableEq, Repr

/-- `Dma`: the four channels. -/
structure Dma where
  chan : Fin 4 → Channel

/-- The `Default` DMA state. -/
def dma0 : Dma := ⟨fun _ => {}⟩

/-- `Dma::in_audio_fifo_mode`. -/
def Dma.inAudioFifoMode (dma : Dma) (chanIdx : Fin 4) : Bool :=
  (1 ≤ chanIdx.val && chanIdx.val ≤ 2) && (dma.chan chanIdx).timing_mode == 3

/-- `Dma::start_transfer`. -/
def Dma.startTransfer (dma : Dma) (chanIdx : Fin 4) : Dma :=
  let audioFifo := dma.inAudioFifoMode chanIdx
  let chan := dma.chan chanIdx
  if chan.enabled = false ∨ chan.state ≠ TransferState.idle then dma
  else
    let chan :=
      if audioFifo then { chan with rem_blocks := 4 }
      else
        let maxBlocks := if chanIdx.val = 3 then 0x10000 else 0x4000
        if chan.rem_blocks = 0 ∨ chan.rem_blocks > maxBlocks then
          { chan with rem_blocks := maxBlocks }
        else chan
    { dma with chan := Function.update dma.chan chanIdx { chan with state := .startingTransfer } }

/-- `set_addr_byte` in `Dma::write_byte`: channel 0 truncates the top
address byte to 3 bits, channels 1-3 to 4 bits. -/
def setAddrByte (chanIdx : Fin 4) (addr : Nat) (i : Nat) (value : Nat) : Nat :=
  match i with
  | 0 | 1 | 2 => setBits (i * 8) 8 addr value
  | _ =>
    if chanIdx.val = 0 then setBits 24 8 addr (value % 8)
    else setBits 24 8 addr (value % 16)

/-- `<Dma as Bus>::write_byte`. The source asserts `0xb0 <= addr < 0xe0`;
outside that range this model leaves the state unchanged. -/
def Dma.writeByte (dma : Dma) (addr value : Nat) : Dma :=
  if h : 0xb0 ≤ addr ∧ addr < 0xe0 then
    let chanIdx : Fin 4 := ⟨(addr - 0xb0) / 12, by omega⟩
    let chan := dma.chan chanIdx
    let put := fun c => { dma with chan := Function.update dma.chan chanIdx c }
    match (addr - 0xb0) % 12 with
    | 0 => put { chan with initial_src_addr := setAddrByte chanIdx chan.initial_src_addr 0 value }
    | 1 => put { chan with initial_src_addr := setAddrByte chanIdx chan.initial_src_addr 1 value }
    | 2 => put { chan with initial_src_addr := setAddrByte chanIdx chan.initial_src_addr 2 value }
    | 3 => put { chan with initial_src_addr := setAddrByte chanIdx chan.initial_src_addr 3 value }
    | 4 => put { chan with initial_dst_addr := setAddrByte chanIdx chan.initial_dst_addr 0 value }
    | 5 => put { chan with initial_dst_addr := setAddrByte chanIdx chan.initial_dst_addr 1 value }
    | 6 => put { chan with initial_dst_addr := setAddrByte chanIdx chan.initial_dst_addr 2 value }
    | 7 => put { chan with initial_dst_addr := setAddrByte chanIdx chan.initial_dst_addr 3 value }
    | 8 => put { chan with initial_blocks := setBits 0 8 chan.initial_blocks value }
    | 9 => put { chan with initial_blocks := setBits 8 24 chan.initial_blocks value }
    | 10 => put
        { chan with
          cached_dmacnt_hi_bits := setBits 0 8 chan.cached_dmacnt_hi_bits value
          dst_addr_ctrl := value / 32 % 4
          src_addr_ctrl := setBit 0 chan.src_addr_ctrl (value.testBit 7) }
    | 11 =>
      let oldEnabled := chan.enabled
      let chan :=
        { chan with
          cached_dmacnt_hi_bits := setBits 8 8 chan.cached_dmacnt_hi_bits value
          src_addr_ctrl := setBit 1 chan.src_addr_ctrl (value.testBit 0)
          repeat_enabled := value.testBit 1
          transfer_word := value.testBit 2
          cart_drq := value.testBit 3
          timing_mode := value / 16 % 4
          irq_enabled := value.testBit 6
          enabled := value.testBit 7 }
      if !oldEnabled && chan.enabled then
        let chan :=
          { chan with
            src_addr := chan.initial_src_addr
            dst_addr := chan.initial_dst_addr
            rem_blocks := chan.initial_blocks }
        let dma := put chan
        if chan.timing_mode = 0 then dma.startTransfer chanIdx else dma
      else put chan
    | _ => dma
  else dma

/-- The `update_addr` closure in `Dma::step`: 32-bit wrapping address
post-update per the 2-bit control. Control 3 behaves as increment here;
other values are unreachable in the source. -/
def updateAddr (addr ctrl offset : Nat) : Nat :=
  match ctrl with
  | 0 | 3 => (addr + offset) % 2 ^ 32
  | 1 => (addr + (2 ^ 32 - offset % 2 ^ 32)) % 2 ^ 32
  | _ => addr

/-- The transfer effect emitted by `Dma::step`, as a descriptor of the
values captured by the returned closure. -/
structure Transfer where
  src_addr : Nat
  dst_addr : Nat
  src_addr_ctrl : Nat
  dst_addr_ctrl : Nat
  blocks : Nat
  transfer_word : Bool
  stride : Nat
  deriving DecidableEq, Repr

/-- Everything `Dma::step` produces besides the new DMA state: the
channel indices whose completion interrupt was requested, the optional
transfer effect, and the optional EEPROM block-count notification sent to
the cartridge. -/
structure StepResult where
  dma : Dma
  irqs : List Nat
  transfer : Option Transfer
  eepromNotify : Option Nat

/-- The body of `Dma::step` for one non-idle enabled channel
(`isEepromOffset` stands for `cart.is_eeprom_offset`). -/
def Dma.stepChannel (dma : Dma) (chanIdx : Fin 4) (cycles : Nat)
    (isEepromOffset : Nat → Bool) : StepResult :=
  let audioFifo := dma.inAudioFifoMode chanIdx
  let chan := dma.chan chanIdx
  let dstAddr := chan.dst_addr
  let eepromNotify :=
    if chan.state = .startingTransfer ∧ dstAddr ≥ 0x08000000 ∧
        isEepromOffset (dstAddr - 0x08000000) = true then
      some chan.rem_blocks
    else none
  let chan := { chan with state := .transferring }
  let srcAddr := chan.src_addr
  let srcAddrCtrl := chan.src_addr_ctrl
  let dstAddrCtrl := if audioFifo then 2 else chan.dst_addr_ctrl
  let blocks := min chan.rem_blocks cycles
  let transferWord := audioFifo || chan.transfer_word
  let stride := if transferWord then 4 else 2
  let chan :=
    { chan with
      src_addr := updateAddr chan.src_addr srcAddrCtrl (stride * blocks)
      dst_addr := updateAddr chan.dst_addr dstAddrCtrl (stride * blocks) }
  let chan := { chan with rem_blocks := chan.rem_blocks - blocks }
  let result :=
    if chan.rem_blocks = 0 then
      let chan := { chan with state := .idle, enabled := chan.repeat_enabled }
      let chan :=
        if chan.repeat_enabled then
          let chan :=
            if chan.dst_addr_ctrl = 3 then { chan with dst_addr := chan.initial_dst_addr }
            else chan
          { chan with rem_blocks := chan.initial_blocks }
        else chan
      (chan, if chan.irq_enabled then [chanIdx.val] else ([] : List Nat))
    else (chan, [])
  { dma := { dma with chan := Function.update dma.chan chanIdx result.1 }
    irqs := result.2
    transfer := some ⟨srcAddr, dstAddr, srcAddrCtrl, dstAddrCtrl, blocks, transferWord, stride⟩
    eepromNotify := eepromNotify }

/-- Whether the scan loop in `Dma::step` skips channel `chanIdx`. -/
def Dma.skipsChannel (dma : Dma) (chanIdx : Fin 4) : Bool :=
  !(dma.chan chanIdx).enabled || (dma.chan chanIdx).state == .idle

/-- `Dma::step`: scan channels 0 → 3 and process the first enabled
non-idle one. -/
def Dma.step (dma : Dma) (cycles : Nat) (isEepromOffset : Nat → Bool) : StepResult :=
  if !dma.skipsChannel 0 then dma.stepChannel 0 cycles isEepromOffset
  else if !dma.skipsChannel 1 then dma.stepChannel 1 cycles isEepromOffset
  else if !dma.skipsChannel 2 then dma.stepChannel 2 cycles isEepromOffset
  else if !dma.skipsChannel 3 then dma.stepChannel 3 cycles isEepromOffset
  else ⟨dma, [], none, none⟩

/-- `Event` in dma.rs: trigger notifications from peripherals. -/
inductive Event
  | vblank
  | hblank
  | audioFifoA
  | audioFifoB
  deriving DecidableEq, Repr

/-- The timing mode an event matches (`event_timing_mode`). -/
def Event.timingMode : Event → Nat
  | .vblank => 1
  | .hblank => 2
  | .audioFifoA | .audioFifoB => 3

/-- The audio FIFO address an event is tied to (`fifo_addr`). -/
def Event.fifoAddr : Event → Option Nat
  | .audioFifoA => some 0x040000a0
  | .audioFifoB => some 0x040000a4
  | _ => none

/-- One iteration of the loop in `Dma::notify`. -/
def Dma.notifyChan (dma : Dma) (event : Event) (chanIdx : Fin 4) : Dma :=
  if (dma.chan chanIdx).enabled = false ∨ (dma.chan chanIdx).timing_mode ≠ event.timingMode then
    dma
  else
    match event.fifoAddr with
    | some fifoAddr =>
      if dma.inAudioFifoMode chanIdx = false ∨ (dma.chan chanIdx).initial_dst_addr ≠ fifoAddr then
        dma
      else dma.startTransfer chanIdx
    | none => dma.startTransfer chanIdx

/-- `Dma::notify`: arm every matching channel. -/
def Dma.notify (dma : Dma) (event : Event) : Dma :=
  ((((dma.notifyChan event 0).notifyChan event 1).notifyChan event 2).notifyChan event 3)

/-! ## Bus byte-write routing (src/libmemetendo/src/gba.rs, `Bus::write_byte`) -/

/-- A plain byte write into the backing byte store of a region. -/
def byteWrite (mem : Nat → Nat) (offset v : Nat) : Nat → Nat :=
  fun a => if a = offset then v % 256 else mem a

/-- Modelled from the spec: the `write_byte` of `PaletteRam` lives in the video
module, which is not under src/. Spec §4.5: "Byte writes to palette RAM
are duplicated across the enclosing half-word", and §8: "the half-word at
the aligned address equals (value, value)". -/
def paletteWriteByte (mem : Nat → Nat) (offset v : Nat) : Nat → Nat :=
  fun a => if a = offset / 2 * 2 ∨ a = offset / 2 * 2 + 1 then v % 256 else mem a

/-- Modelled from the spec: the `write_byte` of VRAM lives in the video module,
which is not under src/. Spec §4.5: "byte writes to VRAM are ignored in
OBJ/bitmap background ranges and duplicated to a half-word elsewhere". The
spec gives no numeric bounds for those ranges, so they are a parameter
`objRange` over VRAM offsets. -/
def vramWriteByte (objRange : Nat → Bool) (mem : Nat → Nat) (offset v : Nat) : Nat → Nat :=
  if objRange offset then mem
  else fun a => if a = offset / 2 * 2 ∨ a = offset / 2 * 2 + 1 then v % 256 else mem a

/-- The memory regions reachable from `Bus::write_byte`. The I/O-register
sub-dispatch of the I/O-register region to peripheral registers is collapsed into the
`io_todo` byte buffer here (claims never touch that region); the DMA I/O
registers are modelled separately by `Dma.writeByte`. -/
structure GbaMem where
  ewram : Nat → Nat
  iwram : Nat → Nat
  io_todo : Nat → Nat
  palette_ram : Nat → Nat
  vram : Nat → Nat
  oam : Nat → Nat
  sram : Nat → Nat

/-- `bus::Bus::write_byte` of the composite gba.rs `Bus`: region dispatch on the
address. OAM (0x07000000..=0x07ffffff) has no arm and falls through to the
final catch-all, so byte writes there are ignored, as are writes to BIOS,
ROM and unmapped addresses. -/
def busWriteByte (objRange : Nat → Bool) (m : GbaMem) (addr v : Nat) : GbaMem :=
  if 0x02000000 ≤ addr ∧ addr ≤ 0x02ffffff then
    { m with ewram := byteWrite m.ewram (addr % 0x40000) v }
  else if 0x03000000 ≤ addr ∧ addr ≤ 0x03ffffff then
    { m with iwram := byteWrite m.iwram (addr % 0x8000) v }
  else if 0x04000000 ≤ addr ∧ addr ≤ 0x040003fe then
    { m with io_todo := byteWrite m.io_todo (addr % 0x400) v }
  else if 0x05000000 ≤ addr ∧ addr ≤ 0x05ffffff then
    { m with palette_ram := paletteWriteByte m.palette_ram (addr % 0x400) v }
  else if 0x06000000 ≤ addr ∧ addr ≤ 0x06ffffff then
    { m with vram := vramWriteByte objRange m.vram (addr % 0x20000) v }
  else if 0x0e000000 ≤ addr ∧ addr ≤ 0x0e00ffff then
    { m with sram := byteWrite m.sram (addr % 0x10000) v }
  else m

/-! ## Thumb execution slice (src/src/arm7tdmi/thumb.rs) -/

/-- `r_index`: a 3-bit register index at bit `pos` of the instruction. -/
def rIndex (instr pos : Nat) : Fin 16 :=
  ⟨instr / 2 ^ pos % 8, by omega⟩

/-- The CPU state touched by Thumb.1: the general registers and the CPSR. -/
structure ThumbCpu where
  r : Fin 16 → Nat
  cpsr : StatusRegister
  deriving Repr

/-- Modelled from the spec: the ALU helper `Cpu::execute_lsl` lives in the
arm7tdmi op module, which is not under src/. Spec §4.3: "LSL by 0: result =
value; carry unchanged. LSL by n (1..=31): carry = bit (32−n) of value;
result = value << n. LSL by 32: result = 0; carry = bit 0. LSL by >32:
result = 0; carry = 0." The S-bit is implicitly true for Thumb.1 (§4.4),
so the zero and negative flags are set from the 32-bit result. -/
def executeLsl (cpu : ThumbCpu) (value offset : Nat) : ThumbCpu × Nat :=
  let carry :=
    if offset = 0 then cpu.cpsr.carry
    else if offset ≤ 31 then value.testBit (32 - offset)
    else if offset = 32 then value.testBit 0
    else false
  let result := if offset ≤ 31 then value * 2 ^ offset % 2 ^ 32 else 0
  ({ cpu with
      cpsr :=
        { cpu.cpsr with
          carry := carry, zero := result == 0, signed := result.testBit 31 } },
    result)

/-- Modelled from the spec: `Cpu::execute_lsr` (immediate form), not under
src/. Spec §4.3: "LSR by 0 (immediate form): treated as LSR by 32; result
= 0; carry = bit 31. LSR by 1..=31 works as shift; by 32 carry = bit 31,
result 0; by >32 both 0", with zero/negative set from the result. -/
def executeLsr (cpu : ThumbCpu) (value offset : Nat) : ThumbCpu × Nat :=
  let offset := if offset = 0 then 32 else offset
  let carry :=
    if offset ≤ 32 then value.testBit (offset - 1) else false
  let result := if offset ≤ 31 then value % 2 ^ 32 / 2 ^ offset else 0
  ({ cpu with
      cpsr :=
        { cpu.cpsr with
          carry := carry, zero := result == 0, signed := result.testBit 31 } },
    result)

/-- Modelled from the spec: `Cpu::execute_asr` (immediate form), not under
src/. Spec §4.3: "ASR by 0 (immediate form): treated as ASR by 32; carry =
bit 31; result = bit 31 sign-extended", with zero/negative from the
result. For 1 ≤ n ≤ 31 it is an arithmetic shift of the 32-bit value. -/
def executeAsr (cpu : ThumbCpu) (value offset : Nat) : ThumbCpu × Nat :=
  let offset := if offset = 0 ∨ offset > 32 then 32 else offset
  let carry := value.testBit (min 31 (offset - 1))
  let result :=
    if value.testBit 31 then
      (value % 2 ^ 32 / 2 ^ offset + (2 ^ 32 - 2 ^ (32 - min 32 offset))) % 2 ^ 32
    else value % 2 ^ 32 / 2 ^ offset
  ({ cpu with
      cpsr :=
        { cpu.cpsr with
          carry := carry, zero := result == 0, signed := result.testBit 31 } },
    result)

/-- The dispatch match in `Cpu::execute_thumb`, as the number of the Thumb
format the 16-bit instruction is routed to (first matching arm wins).
Software interrupts are reported as 99 and undecoded patterns as 0. -/
def thumbFormat (instr : Nat) : Nat :=
  if instr / 2 ^ 8 % 2 ^ 8 = 0b10110000 then 13
  else if instr / 2 ^ 8 % 2 ^ 8 = 0b11011111 then 99
  else if instr / 2 ^ 10 % 2 ^ 6 = 0b010000 then 4
  else if instr / 2 ^ 10 % 2 ^ 6 = 0b010001 then 5
  else if instr / 2 ^ 11 % 2 ^ 5 = 0b00011 then 2
  else if instr / 2 ^ 11 % 2 ^ 5 = 0b01001 then 6
  else if instr / 2 ^ 11 % 2 ^ 5 = 0b11100 then 18
  else if instr / 2 ^ 12 % 2 ^ 4 = 0b0101 then 7
  else if instr / 2 ^ 12 % 2 ^ 4 = 0b1000 then 10
  else if instr / 2 ^ 12 % 2 ^ 4 = 0b1001 then 11
  else if instr / 2 ^ 12 % 2 ^ 4 = 0b1010 then 12
  else if instr / 2 ^ 12 % 2 ^ 4 = 0b1011 then 14
  else if instr / 2 ^ 12 % 2 ^ 4 = 0b1100 then 15
  else if instr / 2 ^ 12 % 2 ^ 4 = 0b1101 then 16
  else if instr / 2 ^ 12 % 2 ^ 4 = 0b1111 then 19
  else if instr / 2 ^ 13 % 2 ^ 3 = 0b000 then 1
  else if instr / 2 ^ 13 % 2 ^ 3 = 0b001 then 3
  else if instr / 2 ^ 13 % 2 ^ 3 = 0b011 then 9
  else 0

/-- `Cpu::execute_thumb1` (move shifted register): `Rd := shift(Rs, #off)`
with the shift kind in bits 11-12. Value 3 of those bits is unreachable
(such instructions decode as Thumb.2) and leaves the state unchanged. -/
def executeThumb1 (cpu : ThumbCpu) (instr : Nat) : ThumbCpu :=
  let value := cpu.r (rIndex instr 3)
  let offset := instr / 2 ^ 6 % 2 ^ 5
  match instr / 2 ^ 11 % 4 with
  | 0 =>
    let res := executeLsl cpu value offset
    { res.1 with r := Function.update res.1.r (rIndex instr 0) res.2 }
  | 1 =>
    let res := executeLsr cpu value offset
    { res.1 with r := Function.update res.1.r (rIndex instr 0) res.2 }
  | 2 =>
    let res := executeAsr cpu value offset
    { res.1 with r := Function.update res.1.r (rIndex instr 0) res.2 }
  | _ => cpu

/-! ## Concrete states used by witnesses and counterexamples -/

/-- An all-zero memory. -/
def mem0 : GbaMem :=
  ⟨fun _ => 0, fun _ => 0, fun _ => 0, fun _ => 0, fun _ => 0, fun _ => 0, fun _ => 0⟩

/-- A Thumb-state CPU with `r1 = 0b10` and every other register zero. -/
def cpu9 : ThumbCpu :=
  ⟨fun i => if i.val = 1 then 2 else 0, { sr0 with state := .thumb }⟩

/-- The default register file. -/
def reg0 : Registers := ⟨fun _ => 0, {}, {}, fun _ => {}, fun _ => 0⟩

/-! ## Helper lemmas -/

theorem setControlFromBits_snd (sr : StatusRegister) (w : Nat) :
    (sr.setControlFromBits w).2 = OperationMode.fromBits w := by
  rcases h : OperationMode.fromBits w with _ | m <;>
    simp [StatusRegister.setControlFromBits, h]

theorem fromRepr_eq_some {r : Nat} {m : OperationMode}
    (h : OperationMode.fromRepr r = some m) : r = m.modeBits := by
  unfold OperationMode.fromRepr at h
  split at h <;> simp_all <;> subst h <;> rfl

theorem fromRepr_modeBits (m : OperationMode) :
    OperationMode.fromRepr m.modeBits = some m := by
  cases m <;> rfl

/-! ## Claim theorems -/

/-- C8: `set_control_from_bits` returns an error exactly when the low 5
bits of the written word are none of the seven defined operation-mode
encodings; when they are one of them, it succeeds with the decoded mode
(which is also stored in the mode field). -/
theorem control_write_error_iff (sr : StatusRegister) (w : Nat) :
    ((sr.setControlFromBits w).2 = none ↔
      ¬(w % 32 = 0b10000 ∨ w % 32 = 0b10001 ∨ w % 32 = 0b10010 ∨ w % 32 = 0b10011 ∨
        w % 32 = 0b10111 ∨ w % 32 = 0b11011 ∨ w % 32 = 0b11111)) ∧
    ∀ m : OperationMode, w % 32 = m.modeBits →
      (sr.setControlFromBits w).2 = some m ∧ (sr.setControlFromBits w).1.mode = m := by
  constructor
  · rw [setControlFromBits_snd]
    unfold OperationMode.fromBits
    have h32 : w % 32 < 32 := by omega
    generalize w % 32 = r at *
    interval_cases r <;> simp [OperationMode.fromRepr]
  · intro m hm
    have h1 : OperationMode.fromBits w = some m := by
      unfold OperationMode.fromBits
      rw [hm, fromRepr_modeBits]
    refine ⟨by rw [setControlFromBits_snd, h1], ?_⟩
    simp [StatusRegister.setControlFromBits, h1]

/-- C8 witness: at `w = 17` the write succeeds with mode FastInterrupt. -/
theorem control_write_error_iff_witness :
    (((sr0.setControlFromBits 17).2 = none ↔
      ¬((17 : Nat) % 32 = 0b10000 ∨ (17 : Nat) % 32 = 0b10001 ∨ (17 : Nat) % 32 = 0b10010 ∨
        (17 : Nat) % 32 = 0b10011 ∨ (17 : Nat) % 32 = 0b10111 ∨ (17 : Nat) % 32 = 0b11011 ∨
        (17 : Nat) % 32 = 0b11111)) ∧
      (sr0.setControlFromBits 17).2 = some .fastInterrupt ∧
      (sr0.setControlFromBits 17).1.mode = .fastInterrupt) :=
  ⟨(control_write_error_iff sr0 17).1,
    (control_write_error_iff sr0 17).2 .fastInterrupt (by decide)⟩

/-- C10: on a write whose low 5 bits decode to no mode,
`set_control_from_bits` errors out, but the IRQ-disable and FIQ-disable
flags have already been updated from bits 7 and 6; only the mode field
(and everything else) is left unchanged. -/
theorem control_write_error_not_atomic (sr : StatusRegister) (w : Nat)
    (h : OperationMode.fromBits w = none) :
    sr.setControlFromBits w =
      ({ sr with irq_disabled := w.testBit 7, fiq_disabled := w.testBit 6 }, none) := by
  simp [StatusRegister.setControlFromBits, h]

/-- C10 witness: `w = 0xC0` (bits 7 and 6 set, low 5 bits invalid). -/
theorem control_write_error_not_atomic_witness :
    sr0.setControlFromBits 0xC0 =
      ({ sr0 with
          irq_disabled := (0xC0 : Nat).testBit 7
          fiq_disabled := (0xC0 : Nat).testBit 6 }, none) :=
  control_write_error_not_atomic sr0 0xC0 (by decide)

/-- C3 counterexample: writing `W = 0x130` through the flags-only and
control-only paths and reading the CPSR back yields `0x10`: the
instruction-state bit (bit 5 of W) is not reproduced and the reserved
bit 8 of W is not preserved. -/
theorem cpsr_roundtrip_counterexample :
    (((sr0.setFlagsFromBits 0x130).setControlFromBits 0x130).1.bits ≠ 0x130) ∧
    ((((sr0.setFlagsFromBits 0x130).setControlFromBits 0x130).1.bits.testBit 5) ≠
      (0x130 : Nat).testBit 5) ∧
    ((((sr0.setFlagsFromBits 0x130).setControlFromBits 0x130).1.bits.testBit 8) ≠
      (0x130 : Nat).testBit 8) := by
  decide

/-- C3 (amended): writing `W` to the CPSR through the flags-only and
control-only paths and reading back reproduces `W` in the condition flags
(bits 31-28), the IRQ/FIQ-disable bits (7, 6) and the mode field (bits
4-0) whenever the low 5 bits of `W` decode to a mode; the instruction-state
bit (bit 5) keeps its prior value and the reserved bits 8-27 read back as
zero. -/
theorem cpsr_roundtrip (sr : StatusRegister) (w : Nat) (m : OperationMode)
    (h : OperationMode.fromBits w = some m) :
    ((sr.setFlagsFromBits w).setControlFromBits w).1.bits.testBit 31 = w.testBit 31 ∧
    ((sr.setFlagsFromBits w).setControlFromBits w).1.bits.testBit 30 = w.testBit 30 ∧
    ((sr.setFlagsFromBits w).setControlFromBits w).1.bits.testBit 29 = w.testBit 29 ∧
    ((sr.setFlagsFromBits w).setControlFromBits w).1.bits.testBit 28 = w.testBit 28 ∧
    ((sr.setFlagsFromBits w).setControlFromBits w).1.bits.testBit 7 = w.testBit 7 ∧
    ((sr.setFlagsFromBits w).setControlFromBits w).1.bits.testBit 6 = w.testBit 6 ∧
    ((sr.setFlagsFromBits w).setControlFromBits w).1.bits % 32 = w % 32 ∧
    ((sr.setFlagsFromBits w).setControlFromBits w).1.bits.testBit 5 =
      (sr.state == OperationState.thumb) ∧
    ((sr.setFlagsFromBits w).setControlFromBits w).1.bits / 2 ^ 8 % 2 ^ 20 = 0 := by
  have h' : OperationMode.fromRepr (w % 32) = some m := h
  have hw : w % 32 = m.modeBits := fromRepr_eq_some h'
  have hsr1 : ((sr.setFlagsFromBits w).setControlFromBits w).1 =
      { signed := w.testBit 31
        zero := w.testBit 30
        carry := w.testBit 29
        overflow := w.testBit 28
        irq_disabled := w.testBit 7
        fiq_disabled := w.testBit 6
        state := sr.state
        mode := m } := by
    simp [StatusRegister.setFlagsFromBits, StatusRegister.setControlFromBits, h]
  rw [hsr1, hw]
  generalize w.testBit 31 = b31
  generalize w.testBit 30 = b30
  generalize w.testBit 29 = b29
  generalize w.testBit 28 = b28
  generalize w.testBit 7 = b7
  generalize w.testBit 6 = b6
  generalize sr.state = st
  cases b31 <;> cases b30 <;> cases b29 <;> cases b28 <;> cases b7 <;> cases b6 <;>
    cases st <;> cases m <;> decide

/-- C3 witness: the amended round trip at `W = 0x1F0000D3`. -/
theorem cpsr_roundtrip_witness :
    ((sr0.setFlagsFromBits 0x1F0000D3).setControlFromBits 0x1F0000D3).1.bits.testBit 31 =
      (0x1F0000D3 : Nat).testBit 31 :=
  (cpsr_roundtrip sr0 0x1F0000D3 .supervisor (by decide)).1

/-- C5: entering FastInterrupt from any other mode `m`, running with an
arbitrary register file `v` while in FIQ, and switching back to `m`
restores r8-r12 and the banked SP/LR of `m` to their values at FIQ entry,
and leaves the hidden FIQ r8-r12 bank holding the in-FIQ values. -/
theorem fiq_bank_roundtrip (reg : Registers) (m : OperationMode) (v : Fin 16 → Nat)
    (hm : m ≠ OperationMode.fastInterrupt) (hmode : reg.cpsr.mode = m) :
    (∀ i : Fin 16, 8 ≤ i.val → i.val ≤ 14 →
      ({ reg.changeMode .fastInterrupt with r := v }.changeMode m).r i = reg.r i) ∧
    (∀ j : Fin 5,
      ({ reg.changeMode .fastInterrupt with r := v }.changeMode m).fiq_r8_12_bank j =
        v ⟨j.val + 8, by omega⟩) := by
  have hb : m.bankIndex ≠ 1 := by
    cases m <;> simp_all [OperationMode.bankIndex]
  have hb' : (1 : Fin 6) ≠ m.bankIndex := fun h => hb h.symm
  have ha : OperationMode.fastInterrupt.bankIndex = 1 := rfl
  constructor
  · intro i h8 h14
    rcases i with ⟨iv, hiv⟩
    interval_cases iv <;>
      simp [Registers.changeMode, Registers.changeBank, hmode, ha, hb, hb',
        Function.update] <;>
      first
        | rfl
        | (intro h; exact absurd h (by decide))
  · intro j
    rcases j with ⟨jv, hjv⟩
    interval_cases jv <;>
      simp [Registers.changeMode, Registers.changeBank, hmode, ha, hb, hb',
        Function.update] <;>
      try rfl

/-- C5 witness: round trip Supervisor → FastInterrupt → Supervisor on the
default register file, checking r8. -/
theorem fiq_bank_roundtrip_witness :
    ({ reg0.changeMode .fastInterrupt with
        r := fun i => 100 + i.val }.changeMode .supervisor).r 8 = reg0.r 8 :=
  (fiq_bank_roundtrip reg0 .supervisor (fun i => 100 + i.val) (by decide) (by decide)).1
    8 (by decide) (by decide)

/-- C7: writing the high control byte with bit 7 set while the channel was
disabled (the enable edge) copies the initial source address, initial
destination address and initial block count into the running registers;
it arms the channel exactly when the timing mode (bits 4-5 of the byte)
is immediate, in which case the block count is also clamped by
`start_transfer` (exact when `1 ≤ initial_blocks ≤ max`); a high-byte
write that leaves the enable bit at its prior value performs no copy and
no state transition. -/
theorem dma_enable_edge (d : Dma) (i : Fin 4) (v : Nat) :
    ((d.chan i).enabled = false → v.testBit 7 = true →
      ((d.writeByte (0xb0 + 12 * i.val + 11) v).chan i).src_addr =
        (d.chan i).initial_src_addr ∧
      ((d.writeByte (0xb0 + 12 * i.val + 11) v).chan i).dst_addr =
        (d.chan i).initial_dst_addr ∧
      (v / 16 % 4 ≠ 0 →
        ((d.writeByte (0xb0 + 12 * i.val + 11) v).chan i).rem_blocks =
          (d.chan i).initial_blocks ∧
        ((d.writeByte (0xb0 + 12 * i.val + 11) v).chan i).state = (d.chan i).state) ∧
      (v / 16 % 4 = 0 →
        ((d.writeByte (0xb0 + 12 * i.val + 11) v).chan i).state ≠ TransferState.idle ∧
        ((d.chan i).state = TransferState.idle →
          ((d.writeByte (0xb0 + 12 * i.val + 11) v).chan i).state =
            TransferState.startingTransfer ∧
          (1 ≤ (d.chan i).initial_blocks →
            (d.chan i).initial_blocks ≤ (if i.val = 3 then 0x10000 else 0x4000) →
            ((d.writeByte (0xb0 + 12 * i.val + 11) v).chan i).rem_blocks =
              (d.chan i).initial_blocks)))) ∧
    (v.testBit 7 = (d.chan i).enabled →
      ((d.writeByte (0xb0 + 12 * i.val + 11) v).chan i).src_addr = (d.chan i).src_addr ∧
      ((d.writeByte (0xb0 + 12 * i.val + 11) v).chan i).dst_addr = (d.chan i).dst_addr ∧
      ((d.writeByte (0xb0 + 12 * i.val + 11) v).chan i).rem_blocks = (d.chan i).rem_blocks ∧
      ((d.writeByte (0xb0 + 12 * i.val + 11) v).chan i).state = (d.chan i).state) := by
  have haddr : 0xb0 + 12 * i.val + 11 = 12 * i.val + 0xbb := by omega
  rw [haddr]
  have hoff : (12 * i.val + 11) % 12 = 11 := by omega
  have hdiv : (12 * i.val + 11) / 12 = i.val := by omega
  have hrange : 0xb0 ≤ 12 * i.val + 0xbb ∧ 12 * i.val + 0xbb < 0xe0 := by
    have := i.isLt; omega
  have hi : i.val < 4 := i.isLt
  constructor
  · intro he hv
    by_cases ht : v / 16 % 4 = 0
    · by_cases hs : (d.chan i).state = TransferState.idle <;>
        simp [Dma.writeByte, hrange, hoff, hdiv, Fin.eta, Dma.startTransfer,
          Dma.inAudioFifoMode, he, hv, ht, hs, Function.update,
          apply_ite Channel.src_addr, apply_ite Channel.dst_addr,
          apply_ite Channel.rem_blocks, apply_ite Channel.state] <;>
        (try intro h1 h2) <;> (try split_ifs at *) <;> omega
    · simp [Dma.writeByte, hrange, hoff, hdiv, Fin.eta, Dma.startTransfer,
        Dma.inAudioFifoMode, he, hv, ht, Function.update]
  · intro he
    by_cases hv : v.testBit 7 = true
    · rw [hv] at he
      simp [Dma.writeByte, hrange, hoff, hdiv, Fin.eta, he.symm, hv, Function.update]
    · have hv' : v.testBit 7 = false := by simpa using hv
      rw [hv'] at he
      simp [Dma.writeByte, hrange, hoff, hdiv, Fin.eta, he.symm, hv', Function.update]

/-- C7 witness: enable edge on channel 0 with byte 0x90 (enable, vblank
timing): the running source address is loaded from the initial one. -/
theorem dma_enable_edge_witness :
    ((dma0.writeByte (0xb0 + 12 * (0 : Fin 4).val + 11) 0x90).chan 0).src_addr =
      (dma0.chan 0).initial_src_addr :=
  (((dma_enable_edge dma0 0 0x90).1 (by decide) (by decide)).1)

/-- C1 counterexample: the 16-bit control value 0x0200 (only bit 9 set)
written as its two bytes to the control register of channel 0 sets the repeat
flag and leaves transfer-word clear, while the claimed table (bit 11 =
repeat, bit 9 = transfer-word) predicts the opposite. -/
theorem dmacnt_bit_positions_counterexample :
    (((dma0.writeByte 0xba 0x00).writeByte 0xbb 0x02).chan 0).repeat_enabled = true ∧
    (((dma0.writeByte 0xba 0x00).writeByte 0xbb 0x02).chan 0).transfer_word = false ∧
    Nat.testBit 0x200 11 = false ∧ Nat.testBit 0x200 9 = true := by
  decide

/-- C1 (amended): for every channel `i` and 16-bit control value `c`
written as its two bytes (low then high), the stored fields come from:
bit 15 enable, bits 12-13 timing-mode, bit 14 IRQ-on-complete, bit 10
transfer-word, bit 11 cart-DRQ, bits 5-6 destination-addr control,
bits 7-8 source-addr control, bit 9 repeat. -/
theorem dmacnt_bit_positions (d : Dma) (i : Fin 4) (c : Nat) (hc : c < 0x10000) :
    (((d.writeByte (0xb0 + (12 * i.val + 10)) (c % 256)).writeByte (0xb0 + (12 * i.val + 11))
        (c / 256)).chan i).enabled = c.testBit 15 ∧
    (((d.writeByte (0xb0 + (12 * i.val + 10)) (c % 256)).writeByte (0xb0 + (12 * i.val + 11))
        (c / 256)).chan i).timing_mode = c / 2 ^ 12 % 4 ∧
    (((d.writeByte (0xb0 + (12 * i.val + 10)) (c % 256)).writeByte (0xb0 + (12 * i.val + 11))
        (c / 256)).chan i).irq_enabled = c.testBit 14 ∧
    (((d.writeByte (0xb0 + (12 * i.val + 10)) (c % 256)).writeByte (0xb0 + (12 * i.val + 11))
        (c / 256)).chan i).cart_drq = c.testBit 11 ∧
    (((d.writeByte (0xb0 + (12 * i.val + 10)) (c % 256)).writeByte (0xb0 + (12 * i.val + 11))
        (c / 256)).chan i).transfer_word = c.testBit 10 ∧
    (((d.writeByte (0xb0 + (12 * i.val + 10)) (c % 256)).writeByte (0xb0 + (12 * i.val + 11))
        (c / 256)).chan i).repeat_enabled = c.testBit 9 ∧
    (((d.writeByte (0xb0 + (12 * i.val + 10)) (c % 256)).writeByte (0xb0 + (12 * i.val + 11))
        (c / 256)).chan i).src_addr_ctrl % 4 = c / 2 ^ 7 % 4 ∧
    (((d.writeByte (0xb0 + (12 * i.val + 10)) (c % 256)).writeByte (0xb0 + (12 * i.val + 11))
        (c / 256)).chan i).dst_addr_ctrl = c / 2 ^ 5 % 4 := by
  have hi : i.val < 4 := i.isLt
  have hoff1 : (12 * i.val + 10) % 12 = 10 := by omega
  have hdiv1 : (12 * i.val + 10) / 12 = i.val := by omega
  have hoff2 : (12 * i.val + 11) % 12 = 11 := by omega
  have hdiv2 : (12 * i.val + 11) / 12 = i.val := by omega
  have hr1 : 0xb0 ≤ 0xb0 + (12 * i.val + 10) ∧ 0xb0 + (12 * i.val + 10) < 0xe0 := by omega
  have hr2 : 0xb0 ≤ 0xb0 + (12 * i.val + 11) ∧ 0xb0 + (12 * i.val + 11) < 0xe0 := by omega
  have htb : (c / 256).testBit 7 = decide (c / 32768 % 2 = 1) := by
    simp [Nat.testBit_to_div_mod, Nat.div_div_eq_div_mul]
  by_cases he : (d.chan i).enabled <;>
  by_cases hv : c / 32768 % 2 = 1 <;>
    simp [Dma.writeByte, Nat.add_sub_cancel_left, htb, hoff1, hdiv1, hoff2, hdiv2,
      hr1, hr2, Fin.eta, Dma.startTransfer, Dma.inAudioFifoMode, he, hv, setBit, setBits,
      Nat.testBit_to_div_mod, Function.update,
      apply_ite Channel.enabled, apply_ite Channel.timing_mode,
      apply_ite Channel.irq_enabled, apply_ite Channel.cart_drq,
      apply_ite Channel.transfer_word, apply_ite Channel.repeat_enabled,
      apply_ite Channel.src_addr_ctrl, apply_ite Channel.dst_addr_ctrl,
      apply_ite Dma.chan, ite_apply] <;>
    (repeat' apply And.intro) <;> (try split_ifs) <;> omega

/-- C1 witness: the amended bit table at control value 0x9A64 on
channel 2. -/
theorem dmacnt_bit_positions_witness :
    (((dma0.writeByte (0xb0 + (12 * (2 : Fin 4).val + 10)) (0x9A64 % 256)).writeByte
        (0xb0 + (12 * (2 : Fin 4).val + 11)) (0x9A64 / 256)).chan 2).enabled =
      (0x9A64 : Nat).testBit 15 :=
  (dmacnt_bit_positions dma0 2 0x9A64 (by norm_num)).1

/-- C4 counterexample: channel 0 with count register 0x8000, enabled with
vblank timing (control high byte 0x90): at the boundary between the
enable edge and the first trigger the remaining-blocks counter is 0x8000,
exceeding the claimed 0x4000 maximum for channels 0-2. -/
theorem rem_blocks_bound_counterexample :
    ((((dma0.writeByte 0xb8 0x00).writeByte 0xb9 0x80).writeByte 0xbb 0x90).chan 0).rem_blocks
        = 0x8000 ∧
    ¬(((((dma0.writeByte 0xb8 0x00).writeByte 0xb9 0x80).writeByte 0xbb 0x90).chan
        0).rem_blocks ≤ 0x4000) ∧
    ((((dma0.writeByte 0xb8 0x00).writeByte 0xb9 0x80).writeByte 0xbb 0x90).chan 0).enabled
        = true ∧
    ((((dma0.writeByte 0xb8 0x00).writeByte 0xb9 0x80).writeByte 0xbb 0x90).chan
        0).timing_mode = 1 ∧
    ((((dma0.writeByte 0xb8 0x00).writeByte 0xb9 0x80).writeByte 0xbb 0x90).chan 0).state
        = TransferState.idle := by
  decide

/-- C4 (amended): the remaining-blocks counter is a natural number (never
negative), and `start_transfer` clamps it to the per-channel maximum
(0x4000 for channels 0-2, 0x10000 for channel 3) whenever it arms an
enabled idle channel; but at the boundary between the enable edge of a
non-immediate-timing channel and its first trigger the counter equals the
initial block count unclamped, which the count register bounds by 0xFFFF
(it may therefore exceed 0x4000 on channels 0-2). -/
theorem rem_blocks_bound :
    (∀ (d : Dma) (i : Fin 4), (d.chan i).enabled = true →
      (d.chan i).state = TransferState.idle →
      ((d.startTransfer i).chan i).rem_blocks ≤ (if i.val = 3 then 0x10000 else 0x4000)) ∧
    (∀ (d : Dma) (i : Fin 4) (v : Nat), (d.chan i).enabled = false → v.testBit 7 = true →
      v / 16 % 4 ≠ 0 →
      ((d.writeByte (0xb0 + (12 * i.val + 11)) v).chan i).rem_blocks =
        (d.chan i).initial_blocks) ∧
    (∀ (d : Dma) (i : Fin 4) (v : Nat), v < 256 → (d.chan i).initial_blocks < 2 ^ 32 →
      ((d.writeByte (0xb0 + (12 * i.val + 9)) v).chan i).initial_blocks < 0x10000) := by
  refine ⟨?_, ?_, ?_⟩
  · intro d i he hs
    by_cases haf : d.inAudioFifoMode i = true <;>
      simp [Dma.startTransfer, he, hs, haf, Function.update,
        apply_ite Channel.rem_blocks] <;>
      (try split_ifs) <;> omega
  · intro d i v he hv ht
    have hi : i.val < 4 := i.isLt
    have hoff : (12 * i.val + 11) % 12 = 11 := by omega
    have hdiv : (12 * i.val + 11) / 12 = i.val := by omega
    have hrange : 0xb0 ≤ 0xb0 + (12 * i.val + 11) ∧ 0xb0 + (12 * i.val + 11) < 0xe0 := by
      omega
    simp [Dma.writeByte, Nat.add_sub_cancel_left, hrange, hoff, hdiv, Fin.eta,
      Dma.startTransfer, Dma.inAudioFifoMode, he, hv, ht, Function.update]
  · intro d i v hv hx
    have hi : i.val < 4 := i.isLt
    have hoff : (12 * i.val + 9) % 12 = 9 := by omega
    have hdiv : (12 * i.val + 9) / 12 = i.val := by omega
    have hrange : 0xb0 ≤ 0xb0 + (12 * i.val + 9) ∧ 0xb0 + (12 * i.val + 9) < 0xe0 := by
      omega
    simp [Dma.writeByte, Nat.add_sub_cancel_left, hrange, hoff, hdiv, Fin.eta, setBits,
      Function.update]
    omega

/-- C4 witness: arming channel 0 (enabled, idle, count 5) keeps the
counter within the 0x4000 bound. -/
theorem rem_blocks_bound_witness :
    ((((dma0.writeByte 0xb8 0x05).writeByte 0xbb 0x90).startTransfer 0).chan 0).rem_blocks ≤
      (if (0 : Fin 4).val = 3 then 0x10000 else 0x4000) :=
  rem_blocks_bound.1 ((dma0.writeByte 0xb8 0x05).writeByte 0xbb 0x90) 0 (by decide)
    (by decide)

/-! ### C6 helper lemmas: framing of `start_transfer` and `notify` -/

theorem startTransfer_chan_ne (d : Dma) (j i : Fin 4) (hne : i ≠ j) :
    (d.startTransfer j).chan i = d.chan i := by
  by_cases hg : (d.chan j).enabled = false ∨ (d.chan j).state ≠ TransferState.idle <;>
    simp [Dma.startTransfer, hg, Function.update, hne]

theorem notifyChan_chan_ne (d : Dma) (e : Event) (j i : Fin 4) (hne : i ≠ j) :
    (d.notifyChan e j).chan i = d.chan i := by
  unfold Dma.notifyChan
  split
  · rfl
  · split
    · split
      · rfl
      · exact startTransfer_chan_ne d j i hne
    · exact startTransfer_chan_ne d j i hne

theorem inAudioFifoMode_congr (d1 d2 : Dma) (j : Fin 4) (h : d1.chan j = d2.chan j) :
    d1.inAudioFifoMode j = d2.inAudioFifoMode j := by
  simp [Dma.inAudioFifoMode, h]

theorem notifyChan_state_change_fifo (d : Dma) (e : Event) (a : Nat)
    (he : e.fifoAddr = some a) (j i : Fin 4)
    (h : ((d.notifyChan e j).chan i).state ≠ (d.chan i).state) :
    (d.chan j).enabled = true ∧ (d.chan j).timing_mode = e.timingMode ∧
    d.inAudioFifoMode j = true ∧ (d.chan j).initial_dst_addr = a := by
  by_cases hg : (d.chan j).enabled = false ∨ (d.chan j).timing_mode ≠ e.timingMode
  · simp [Dma.notifyChan, hg] at h
  · by_cases hg2 : d.inAudioFifoMode j = false ∨ (d.chan j).initial_dst_addr ≠ a
    · simp [Dma.notifyChan, hg, he, hg2] at h
    · push_neg at hg hg2
      exact ⟨by simpa using hg.1, hg.2, by simpa using hg2.1, hg2.2⟩

theorem notify_state_change_fifo (d : Dma) (e : Event) (a : Nat)
    (he : e.fifoAddr = some a) (i : Fin 4)
    (h : ((d.notify e).chan i).state ≠ (d.chan i).state) :
    d.inAudioFifoMode i = true ∧ (d.chan i).initial_dst_addr = a := by
  obtain ⟨iv, hO⟩ := i
  interval_cases iv
  · rw [show (⟨0, hO⟩ : Fin 4) = 0 from rfl] at h ⊢
    have hch : ((d.notify e).chan 0) = ((d.notifyChan e 0).chan 0) := by
      unfold Dma.notify
      rw [notifyChan_chan_ne _ e 3 0 (by decide), notifyChan_chan_ne _ e 2 0 (by decide),
        notifyChan_chan_ne _ e 1 0 (by decide)]
    rw [hch] at h
    obtain ⟨-, -, h3, h4⟩ := notifyChan_state_change_fifo d e a he 0 0 h
    exact ⟨h3, h4⟩
  · rw [show (⟨1, hO⟩ : Fin 4) = 1 from rfl] at h ⊢
    have hc : (d.notifyChan e 0).chan 1 = d.chan 1 := notifyChan_chan_ne d e 0 1 (by decide)
    have hch : ((d.notify e).chan 1) = (((d.notifyChan e 0).notifyChan e 1).chan 1) := by
      unfold Dma.notify
      rw [notifyChan_chan_ne _ e 3 1 (by decide), notifyChan_chan_ne _ e 2 1 (by decide)]
    rw [hch, ← hc] at h
    obtain ⟨-, -, h3, h4⟩ := notifyChan_state_change_fifo (d.notifyChan e 0) e a he 1 1 h
    rw [hc] at h4
    rw [inAudioFifoMode_congr _ d 1 hc] at h3
    exact ⟨h3, h4⟩
  · rw [show (⟨2, hO⟩ : Fin 4) = 2 from rfl] at h ⊢
    have hc : ((d.notifyChan e 0).notifyChan e 1).chan 2 = d.chan 2 := by
      rw [notifyChan_chan_ne _ e 1 2 (by decide), notifyChan_chan_ne _ e 0 2 (by decide)]
    have hch : ((d.notify e).chan 2) =
        ((((d.notifyChan e 0).notifyChan e 1).notifyChan e 2).chan 2) := by
      unfold Dma.notify
      rw [notifyChan_chan_ne _ e 3 2 (by decide)]
    rw [hch, ← hc] at h
    obtain ⟨-, -, h3, h4⟩ :=
      notifyChan_state_change_fifo ((d.notifyChan e 0).notifyChan e 1) e a he 2 2 h
    rw [hc] at h4
    rw [inAudioFifoMode_congr _ d 2 hc] at h3
    exact ⟨h3, h4⟩
  · rw [show (⟨3, hO⟩ : Fin 4) = 3 from rfl] at h ⊢
    have hc : (((d.notifyChan e 0).notifyChan e 1).notifyChan e 2).chan 3 = d.chan 3 := by
      rw [notifyChan_chan_ne _ e 2 3 (by decide), notifyChan_chan_ne _ e 1 3 (by decide),
        notifyChan_chan_ne _ e 0 3 (by decide)]
    have hch : ((d.notify e).chan 3) =
        (((((d.notifyChan e 0).notifyChan e 1).notifyChan e 2).notifyChan e 3).chan 3) := rfl
    rw [hch, ← hc] at h
    obtain ⟨-, -, h3, h4⟩ :=
      notifyChan_state_change_fifo (((d.notifyChan e 0).notifyChan e 1).notifyChan e 2) e a
        he 3 3 h
    rw [hc] at h4
    rw [inAudioFifoMode_congr _ d 3 hc] at h3
    exact ⟨h3, h4⟩

/-- C6 (amended): the audio-FIFO override is keyed on the channel index
and timing mode alone: `in_audio_fifo_mode` holds exactly for channels 1
and 2 in "special" timing, regardless of the destination address; for
such channels a trigger loads exactly 4 blocks, and a step transfers
word-sized units with the destination-addr control forced to fixed. The
two audio-FIFO destination addresses gate only the FIFO trigger events:
`notify` arms a channel on a FIFO event only if its destination equals
the FIFO address of that event (and it is in audio-FIFO mode). -/
theorem audio_fifo_override :
    (∀ (d : Dma) (i : Fin 4),
      d.inAudioFifoMode i = true ↔ ((i.val = 1 ∨ i.val = 2) ∧ (d.chan i).timing_mode = 3)) ∧
    (∀ (d : Dma) (i : Fin 4), d.inAudioFifoMode i = true → (d.chan i).enabled = true →
      (d.chan i).state = TransferState.idle →
      ((d.startTransfer i).chan i).rem_blocks = 4) ∧
    (∀ (d : Dma) (i : Fin 4) (cyc : Nat) (f : Nat → Bool), d.inAudioFifoMode i = true →
      (d.stepChannel i cyc f).transfer =
        some ⟨(d.chan i).src_addr, (d.chan i).dst_addr, (d.chan i).src_addr_ctrl, 2,
          min (d.chan i).rem_blocks cyc, true, 4⟩) ∧
    (∀ (d : Dma) (i : Fin 4),
      ((d.notify .audioFifoA).chan i).state ≠ (d.chan i).state →
        d.inAudioFifoMode i = true ∧ (d.chan i).initial_dst_addr = 0x040000a0) ∧
    (∀ (d : Dma) (i : Fin 4),
      ((d.notify .audioFifoB).chan i).state ≠ (d.chan i).state →
        d.inAudioFifoMode i = true ∧ (d.chan i).initial_dst_addr = 0x040000a4) := by
  refine ⟨?_, ?_, ?_, ?_, ?_⟩
  · intro d i
    simp [Dma.inAudioFifoMode]
    omega
  · intro d i haf he hs
    simp [Dma.startTransfer, haf, he, hs, Function.update]
  · intro d i cyc f haf
    simp [Dma.stepChannel, haf]
  · intro d i h
    exact notify_state_change_fifo d .audioFifoA 0x040000a0 rfl i h
  · intro d i h
    exact notify_state_change_fifo d .audioFifoB 0x040000a4 rfl i h

/-- C6 counterexample: channel 1 armed with immediate timing towards
destination 0x02000000 (not an audio FIFO address), then switched to
"special" timing while armed: the next step applies the full audio-FIFO
override (word-sized units, destination forced fixed) even though the
destination is not a FIFO address. -/
theorem audio_fifo_override_counterexample :
    (((((dma0.writeByte 0xc3 0x02).writeByte 0xc4 0x08).writeByte 0xc7 0x80).writeByte
        0xc7 0xb0).chan 1).initial_dst_addr = 0x02000000 ∧
    (((((dma0.writeByte 0xc3 0x02).writeByte 0xc4 0x08).writeByte 0xc7 0x80).writeByte
        0xc7 0xb0).chan 1).transfer_word = false ∧
    (((((dma0.writeByte 0xc3 0x02).writeByte 0xc4 0x08).writeByte 0xc7 0x80).writeByte
        0xc7 0xb0).chan 1).timing_mode = 3 ∧
    (((((dma0.writeByte 0xc3 0x02).writeByte 0xc4 0x08).writeByte 0xc7 0x80).writeByte
        0xc7 0xb0).chan 1).state = TransferState.startingTransfer ∧
    (((((dma0.writeByte 0xc3 0x02).writeByte 0xc4 0x08).writeByte 0xc7 0x80).writeByte
        0xc7 0xb0).step 3 fun _ => false).transfer =
      some ⟨0, 0x02000000, 0, 2, 3, true, 4⟩ ∧
    ((((((dma0.writeByte 0xc3 0x02).writeByte 0xc4 0x08).writeByte 0xc7 0x80).writeByte
        0xc7 0xb0).step 3 fun _ => false).dma.chan 1).dst_addr = 0x02000000 := by
  decide

/-- C6 witness: a FIFO-A notify arms channel 1 configured with special
timing and destination 0x040000A0, and the trigger guard implies
audio-FIFO mode with that destination. -/
theorem audio_fifo_override_witness :
    ((((((dma0.writeByte 0xc0 0xa0).writeByte 0xc1 0x00).writeByte 0xc2 0x00).writeByte
        0xc3 0x04).writeByte 0xc4 0x04).writeByte 0xc7 0xb0).inAudioFifoMode 1 = true ∧
    (((((((dma0.writeByte 0xc0 0xa0).writeByte 0xc1 0x00).writeByte 0xc2 0x00).writeByte
        0xc3 0x04).writeByte 0xc4 0x04).writeByte 0xc7 0xb0).chan 1).initial_dst_addr =
      0x040000a0 :=
  audio_fifo_override.2.2.2.1 _ 1 (by decide)

/-- C2: a byte write to Palette RAM stores the byte into both bytes of the
enclosing half-word; a byte write anywhere in the OAM region leaves the
whole memory unchanged; a byte write to VRAM outside the OBJ/bitmap
background ranges is duplicated across the enclosing half-word and inside
those ranges leaves the memory unchanged. -/
theorem video_byte_write_semantics (objRange : Nat → Bool) (m : GbaMem) (addr v : Nat)
    (hv : v < 256) :
    (0x05000000 ≤ addr → addr ≤ 0x05ffffff →
      (busWriteByte objRange m addr v).palette_ram (addr % 0x400 / 2 * 2) = v ∧
      (busWriteByte objRange m addr v).palette_ram (addr % 0x400 / 2 * 2 + 1) = v) ∧
    (0x07000000 ≤ addr → addr ≤ 0x07ffffff →
      busWriteByte objRange m addr v = m) ∧
    (0x06000000 ≤ addr → addr ≤ 0x06ffffff →
      (objRange (addr % 0x20000) = false →
        (busWriteByte objRange m addr v).vram (addr % 0x20000 / 2 * 2) = v ∧
        (busWriteByte objRange m addr v).vram (addr % 0x20000 / 2 * 2 + 1) = v) ∧
      (objRange (addr % 0x20000) = true → busWriteByte objRange m addr v = m)) := by
  refine ⟨?_, ?_, ?_⟩
  · intro h1 h2
    rw [busWriteByte]
    split_ifs with g1 g2 g3 g4 <;> try omega
    constructor <;> simp [paletteWriteByte, Nat.mod_eq_of_lt hv] <;> omega
  · intro h1 h2
    rw [busWriteByte]
    split_ifs <;> first | rfl | omega
  · intro h1 h2
    constructor
    · intro hobj
      rw [busWriteByte]
      split_ifs with g1 g2 g3 g4 g5 <;> try omega
      constructor <;> simp [vramWriteByte, hobj, Nat.mod_eq_of_lt hv] <;> omega
    · intro hobj
      rw [busWriteByte]
      split_ifs with g1 g2 g3 g4 g5 <;> try omega
      simp [vramWriteByte, hobj]

/-- C2 witness: palette write at 0x05000123, OAM write at 0x07000010, a
duplicated and an ignored VRAM write. -/
theorem video_byte_write_semantics_witness :
    ((busWriteByte (fun _ => false) mem0 0x05000123 0xAB).palette_ram
        (0x05000123 % 0x400 / 2 * 2) = 0xAB ∧
      (busWriteByte (fun _ => false) mem0 0x05000123 0xAB).palette_ram
        (0x05000123 % 0x400 / 2 * 2 + 1) = 0xAB) ∧
    busWriteByte (fun _ => false) mem0 0x07000010 0xAB = mem0 ∧
    ((busWriteByte (fun _ => false) mem0 0x06000005 0xAB).vram
        (0x06000005 % 0x20000 / 2 * 2) = 0xAB ∧
      (busWriteByte (fun _ => false) mem0 0x06000005 0xAB).vram
        (0x06000005 % 0x20000 / 2 * 2 + 1) = 0xAB) ∧
    busWriteByte (fun _ => true) mem0 0x06000005 0xAB = mem0 :=
  ⟨(video_byte_write_semantics (fun _ => false) mem0 0x05000123 0xAB (by norm_num)).1
      (by norm_num) (by norm_num),
    (video_byte_write_semantics (fun _ => false) mem0 0x07000010 0xAB (by norm_num)).2.1
      (by norm_num) (by norm_num),
    ((video_byte_write_semantics (fun _ => false) mem0 0x06000005 0xAB (by norm_num)).2.2
      (by norm_num) (by norm_num)).1 rfl,
    ((video_byte_write_semantics (fun _ => true) mem0 0x06000005 0xAB (by norm_num)).2.2
      (by norm_num) (by norm_num)).2 rfl⟩

/-- C9 counterexample: with `r1 = 0b10` in Thumb state, the 16-bit opcode
0x000C routes to Thumb.1, but its shift offset field (bits 6-10) is zero,
so it is LSL r4, r1, #0 and leaves `r4 = 0b10`, not `0b10000` as claimed. -/
theorem thumb_lsl_scenario_counterexample :
    thumbFormat 0x000C = 1 ∧
    (executeThumb1 cpu9 0x000C).r 4 = 0b10 ∧
    ¬((executeThumb1 cpu9 0x000C).r 4 = 0b10000) ∧
    (0x000C : Nat) / 2 ^ 6 % 2 ^ 5 = 0 := by
  decide

/-- C9 (amended): in Thumb state with `r1 = 0b10`, the 16-bit opcode
0x00CC — which is LSL r4, r1, #3, matching the test in thumb.rs — routes
to Thumb.1 and leaves `r4 = 0b10000`, `r1 = 0b10`, carry = 0 and
zero = 0. -/
theorem thumb_lsl_scenario (cpu : ThumbCpu) (hst : cpu.cpsr.state = OperationState.thumb)
    (h1 : cpu.r 1 = 2) :
    thumbFormat 0xCC = 1 ∧
    (executeThumb1 cpu 0xCC).r 4 = 0b10000 ∧
    (executeThumb1 cpu 0xCC).r 1 = 0b10 ∧
    (executeThumb1 cpu 0xCC).cpsr.carry = false ∧
    (executeThumb1 cpu 0xCC).cpsr.zero = false := by
  refine ⟨by decide, ?_, ?_, ?_, ?_⟩ <;>
    simp [executeThumb1, executeLsl, rIndex, h1, Function.update] <;>
    try decide

/-- C9 witness: the amended scenario on the concrete Thumb CPU `cpu9`. -/
theorem thumb_lsl_scenario_witness :
    thumbFormat 0xCC = 1 ∧
    (executeThumb1 cpu9 0xCC).r 4 = 0b10000 ∧
    (executeThumb1 cpu9 0xCC).r 1 = 0b10 ∧
    (executeThumb1 cpu9 0xCC).cpsr.carry = false ∧
    (executeThumb1 cpu9 0xCC).cpsr.zero = false :=
  thumb_lsl_scenario cpu9 (by decide) (by decide)

end Memetendo
